import Mathlib

/-!
Shallow embedding of the CEN3031 tutoring web application backend
(src/backend/handlers/users.go and the data model it manipulates),
together with proofs about the user-facing HTTP behavior.

Modelling conventions:
* The sqlite database behind GORM is modelled as explicit lists of rows;
  primary keys are `Nat` and autoincrement counters are carried in the state.
* The bcrypt library (golang.org/x/crypto/bcrypt) is external to the
  repository; it is modelled as a symbolic constructor that records the cost,
  the random salt and the hashed input, which is faithful to its observable
  contract: the hash embeds cost and salt, `CompareHashAndPassword` extracts
  them and reverifies, a hash string is distinguishable from the input bytes,
  and two hashes with different salts are different strings.
* The randomness of bcrypt's salt and the clock are passed as explicit
  parameters to the handlers that consume them.
* JSON request bodies decoded by `encoding/json` into `models.User` are
  modelled as a record of optional fields: a field absent from the JSON
  object leaves the Go struct field at its zero value, and
  `DisallowUnknownFields` makes bodies with unknown fields a decode error,
  folded into the `none` (malformed) case.
-/

/-- Bytes stored in a password column or submitted as a password: either raw
client-submitted text, or a bcrypt-format hash string `$2a$cost$saltchecksum`.
The bcrypt format is disjoint from the raw texts it is compared against, so a
disjoint sum models byte-for-byte string equality of these values. -/
inductive PwBytes where
  | raw : String → PwBytes
  | hashFmt : Nat → Nat → PwBytes → PwBytes
deriving DecidableEq, Repr

/-- bcrypt.GenerateFromPassword: hashes the input bytes with the given cost,
drawing a fresh random salt (passed explicitly here). -/
def bcryptGenerate (cost salt : Nat) (input : PwBytes) : PwBytes :=
  PwBytes.hashFmt cost salt input

/-- bcrypt.CompareHashAndPassword: succeeds (returns `true` for nil error)
exactly when the first argument is a bcrypt hash whose recorded input matches
the supplied password bytes; on a non-hash first argument it errors. -/
def bcryptCompare (hash input : PwBytes) : Bool :=
  match hash with
  | PwBytes.raw _ => false
  | PwBytes.hashFmt _ _ p => p == input

/-- A row of the users table: the scalar columns of models.User. Association
rows (subjects, connections, reviews) live in their own tables. -/
structure UserRow where
  id : Nat
  username : String
  password : PwBytes
  isTutor : Bool
  firstName : String
  lastName : String
  email : String
  phone : String
  about : String
  rating : Nat
  grade : Nat
deriving DecidableEq, Repr

/-- The zero value of models.User, as produced by `var user models.User`. -/
def UserRow.zero : UserRow :=
  { id := 0, username := "", password := PwBytes.raw "", isTutor := false,
    firstName := "", lastName := "", email := "", phone := "", about := "",
    rating := 0, grade := 0 }

/-- A row of the subjects table. -/
structure Subject where
  id : Nat
  name : String
deriving DecidableEq, Repr

/-- A row of the reviews table; a review belongs to exactly one user. -/
structure Review where
  id : Nat
  userId : Nat
deriving DecidableEq, Repr

/-- The durable store: users with their association tables, plus the
autoincrement counters sqlite assigns primary keys from (starting at 1). -/
structure DB where
  users : List UserRow
  subjects : List Subject
  userSubjects : List (Nat × Nat)
  connections : List (Nat × Nat)
  reviews : List Review
  nextUserId : Nat
  nextSubjectId : Nat
deriving DecidableEq, Repr

def DB.empty : DB :=
  { users := [], subjects := [], userSubjects := [], connections := [],
    reviews := [], nextUserId := 1, nextSubjectId := 1 }

/-- gorm's `db.First(&user, id)`: the row whose primary key matches, if any. -/
def DB.userById (db : DB) (id : Nat) : Option UserRow :=
  db.users.find? (fun u => u.id == id)

/-- The usernames currently in the users table. -/
def DB.usernames (db : DB) : List String :=
  db.users.map (fun u => u.username)

/-- A user hydrated with its three eagerly-loaded relations, as produced by
`Preload("Subjects").Preload("Connections").Preload("Reviews")`. -/
structure HUser where
  row : UserRow
  subjects : List Subject
  connections : List Nat
  reviews : List Review
deriving DecidableEq, Repr

/-- Eager loading of the three relations of a user from the association
tables; a user with no association rows gets empty sequences. -/
def hydrate (db : DB) (u : UserRow) : HUser :=
  { row := u
  , subjects := db.subjects.filter (fun s => db.userSubjects.contains (u.id, s.id))
  , connections := (db.connections.filter (fun c => c.1 == u.id)).map (fun c => c.2)
  , reviews := db.reviews.filter (fun r => r.userId == u.id) }

/-- The JSON (or non-JSON) bodies the handlers write. `jsonError` is the
structured body written by `sendError` (a map with "message" and "status"
keys); `plainText` is what `http.Error` writes; `panicked` marks a handler
that aborted by panic before writing any response; `empty` is a handler that
returned without writing a body. -/
inductive Body where
  | jsonError : String → Nat → Body
  | jsonUserRow : UserRow → Body
  | jsonUserH : HUser → Body
  | jsonUserList : List HUser → Body
  | jsonTutor : HUser → Body
  | jsonStudent : HUser → Body
  | jsonSubject : Subject → Body
  | plainText : String → Body
  | panicked : Body
  | empty : Body
deriving DecidableEq, Repr

structure Response where
  status : Nat
  body : Body
deriving DecidableEq, Repr

/-- sendError: writes the given status and the structured JSON error body. -/
def sendError (message : String) (status : Nat) : Response :=
  { status := status, body := Body.jsonError message status }

/-- A handler that panics writes no HTTP response at all; status 0 records
the absence of a status line. -/
def panicResponse : Response :=
  { status := 0, body := Body.panicked }

/-- A JSON body decoded into models.User by encoding/json: each field of the
object is optional, and an absent field leaves the struct field at its zero
value. -/
structure UserPayload where
  username : Option String
  password : Option PwBytes
  isTutor : Option Bool
  firstName : Option String
  lastName : Option String
  email : Option String
  phone : Option String
  about : Option String
  rating : Option Nat
  grade : Option Nat
deriving DecidableEq, Repr

/-- The JSON body with no fields present. -/
def UserPayload.emptyBody : UserPayload :=
  { username := none, password := none, isTutor := none, firstName := none,
    lastName := none, email := none, phone := none, about := none,
    rating := none, grade := none }

/-- Decoding a well-formed body into a fresh `var user models.User`: present
fields overwrite the zero value, absent fields keep it. -/
def decodePayload (p : UserPayload) : UserRow :=
  { id := 0
  , username := p.username.getD ""
  , password := p.password.getD (PwBytes.raw "")
  , isTutor := p.isTutor.getD false
  , firstName := p.firstName.getD ""
  , lastName := p.lastName.getD ""
  , email := p.email.getD ""
  , phone := p.phone.getD ""
  , about := p.about.getD ""
  , rating := p.rating.getD 0
  , grade := p.grade.getD 0 }

/-- gorm's `db.Model(&user).Updates(updatedUser)` with a struct argument:
only the non-zero fields of the argument are written; zero-valued fields
(empty string, false, 0) are skipped, and the primary key is the where
condition, never an updated column. -/
def mergeNonZero (old upd : UserRow) : UserRow :=
  { id := old.id
  , username := if upd.username == "" then old.username else upd.username
  , password := if upd.password == PwBytes.raw "" then old.password else upd.password
  , isTutor := if upd.isTutor then upd.isTutor else old.isTutor
  , firstName := if upd.firstName == "" then old.firstName else upd.firstName
  , lastName := if upd.lastName == "" then old.lastName else upd.lastName
  , email := if upd.email == "" then old.email else upd.email
  , phone := if upd.phone == "" then old.phone else upd.phone
  , about := if upd.about == "" then old.about else upd.about
  , rating := if upd.rating == 0 then old.rating else upd.rating
  , grade := if upd.grade == 0 then old.grade else upd.grade }

/-- GetAllUsers: finds all users, preloading the three relations, and writes
the list; the query error is ignored and the status defaults to 200. -/
def getAllUsers (db : DB) : Response :=
  { status := 200, body := Body.jsonUserList (db.users.map (hydrate db)) }

/-- GetUser: `db.First` by the path id; on error writes the structured 401
body ("Error retrieving user"), otherwise the hydrated user with 200. -/
def getUser (db : DB) (id : Nat) : Response :=
  match db.userById id with
  | none => sendError "Error retrieving user" 401
  | some u => { status := 200, body := Body.jsonUserH (hydrate db u) }

/-- The outcome of `store.Get` followed by reading `session.Values["userID"]`:
either the cookie store errored, or it yielded a (possibly absent) user id. -/
inductive SessionGet where
  | storeError : SessionGet
  | ok : Option Nat → SessionGet
deriving DecidableEq, Repr

/-- GetUserFromSession: store errors and lookup failures both produce the
structured 401 body; a found user is reshaped through a marshal/unmarshal
round-trip into the Tutor or Student view according to the tutor flag (the
round-trip between these structurally identical shapes always succeeds). -/
def getUserFromSession (db : DB) (sess : SessionGet) : Response :=
  match sess with
  | SessionGet.storeError => sendError "Error retrieving user" 401
  | SessionGet.ok none => sendError "Error retrieving user" 401
  | SessionGet.ok (some uid) =>
    match db.userById uid with
    | none => sendError "Error retrieving user" 401
    | some u =>
      if u.isTutor then
        { status := 200, body := Body.jsonTutor (hydrate db u) }
      else
        { status := 200, body := Body.jsonStudent (hydrate db u) }

/-- NewUser: a decode error (malformed body or unknown fields) is a 400 with
the structured body; an existing row with the exact same username is a 409;
otherwise the password bytes are replaced by their bcrypt hash (cost 10,
fresh salt), the row is inserted with the next autoincrement id (the insert
error is ignored), and the created row is echoed with 200. -/
def newUser (salt : Nat) (db : DB) (req : Option UserPayload) : DB × Response :=
  match req with
  | none => (db, sendError "Bad request format" 400)
  | some p =>
    let user := decodePayload p
    match db.users.find? (fun u => u.username == user.username) with
    | some _ => (db, sendError "Username already exists" 409)
    | none =>
      let hashed := { user with password := bcryptGenerate 10 salt user.password }
      let created := { hashed with id := db.nextUserId }
      ({ db with users := db.users ++ [created], nextUserId := db.nextUserId + 1 },
       { status := 200, body := Body.jsonUserRow created })

/-- DeleteUser: `db.First` by the path id with the error ignored; if no row
matched, the struct keeps its zero value and `db.Delete` on a zero primary
key deletes nothing (gorm refuses a delete without a where condition, and no
sqlite row has id 0 in any case); the (possibly zero) struct is echoed with
the default 200 status. -/
def deleteUser (db : DB) (id : Nat) : DB × Response :=
  match db.userById id with
  | none => (db, { status := 200, body := Body.jsonUserRow UserRow.zero })
  | some u =>
    ({ db with users := db.users.filter (fun v => !(v.id == u.id)) },
     { status := 200, body := Body.jsonUserRow u })

/-- UpdateUser: `db.First` by the path id with the error ignored (a missing
row leaves the zero value); a decode error panics, aborting the request with
no response; if the decoded password differs byte-for-byte from the stored
password column the decoded value is re-hashed with a fresh salt; then the
non-zero fields of the decoded struct are written over the stored row
(gorm struct `Updates`), and the resulting row is echoed with 200. -/
def updateUser (salt : Nat) (db : DB) (id : Nat) (req : Option UserPayload) :
    DB × Response :=
  let user := (db.userById id).getD UserRow.zero
  match req with
  | none => (db, panicResponse)
  | some p =>
    let decoded := decodePayload p
    let updated :=
      if decoded.password != user.password then
        { decoded with password := bcryptGenerate 10 salt decoded.password }
      else decoded
    let merged := mergeNonZero user updated
    let db' := { db with
      users := db.users.map (fun v => if v.id == id then merged else v) }
    (db', { status := 200, body := Body.jsonUserRow merged })

/-- Modelled from the spec: the AddSubject handler (the subjects handler
source file is not under src/, only its test is). Spec §4.1
AddSubjectToUser: fails with NotFound if the user is absent; looks up a
Subject by exact name; if found, associates the existing row with the user;
if not found, creates a new Subject row and then associates it; duplicate
association rows are not guarded against; the associated subject is echoed
with 200. -/
def addSubject (db : DB) (userId : Nat) (name : String) : DB × Response :=
  match db.userById userId with
  | none => (db, sendError "Error retrieving user" 404)
  | some _ =>
    match db.subjects.find? (fun s => s.name == name) with
    | some s =>
      ({ db with userSubjects := db.userSubjects ++ [(userId, s.id)] },
       { status := 200, body := Body.jsonSubject s })
    | none =>
      let s : Subject := { id := db.nextSubjectId, name := name }
      ({ db with subjects := db.subjects ++ [s]
               , nextSubjectId := db.nextSubjectId + 1
               , userSubjects := db.userSubjects ++ [(userId, s.id)] },
       { status := 200, body := Body.jsonSubject s })

/-- The state of the uploads directory. -/
structure FS where
  files : List (String × String)
deriving DecidableEq, Repr

/-- UploadProfilePicture: a multipart parse failure is a plain-text 400 via
`http.Error`; otherwise the destination `/uploads/{id}_{unix}_{name}` is
opened with O_WRONLY|O_CREATE (created empty if absent, left as-is if
present, since O_TRUNC is not set) — an open failure is a plain-text 500 —
and the handler then returns without ever copying the uploaded bytes into
the destination, so a freshly created file stays empty; nothing is written
on success, so the status defaults to 200 with an empty body. -/
def uploadProfilePicture (fs : FS) (now : Nat) (userId : String)
    (form : Option (String × String)) (openOk : Bool) : FS × Response :=
  match form with
  | none => (fs, { status := 400, body := Body.plainText "Error uploading file" })
  | some (origName, _content) =>
    let path := "/uploads/" ++ userId ++ "_" ++ toString now ++ "_" ++ origName
    if openOk then
      let fs' :=
        if (fs.files.find? (fun f => f.1 == path)).isSome then fs
        else { files := fs.files ++ [(path, "")] }
      (fs', { status := 200, body := Body.empty })
    else
      (fs, { status := 500, body := Body.plainText "Error saving file" })

/-! ### Helper lemmas -/

/-- A bcrypt hash is never byte-for-byte equal to the input it hashed. -/
theorem PwBytes.hashFmt_ne_arg : ∀ (p : PwBytes) (c s : Nat), PwBytes.hashFmt c s p ≠ p := by
  intro p
  induction p with
  | raw s0 => intro c s h; exact PwBytes.noConfusion h
  | hashFmt c0 s0 p0 ih => intro c s h; injection h with h1 h2 h3; exact ih c0 s0 h3

/-- Replacing every row with a given primary key in a table that contains
such a row makes the replacement the row found at that key. -/
theorem find?_id_map_replace (l : List UserRow) (id : Nat) (m : UserRow)
    (hm : m.id = id) :
    ∀ u : UserRow, l.find? (fun v => v.id == id) = some u →
      (l.map (fun v => if v.id == id then m else v)).find? (fun v => v.id == id) = some m := by
  induction l with
  | nil => intro u h; simp at h
  | cons a l ih =>
    intro u h
    rw [List.find?_cons] at h
    simp only [List.map_cons]
    rw [List.find?_cons]
    by_cases ha : (a.id == id) = true
    · simp [ha, hm]
    · have hb : (a.id == id) = false := by simpa using ha
      simp only [hb] at h
      have hcond : ¬ ((a.id == id) = true) := by simp [hb]
      rw [if_neg hcond, hb]
      exact ih u h

/-- After filtering out every row with a given primary key, no row with that
key can be found. -/
theorem find?_filter_id_none (l : List UserRow) (id : Nat) :
    (l.filter (fun v => !(v.id == id))).find? (fun v => v.id == id) = none := by
  rw [List.find?_eq_none]
  intro x hx
  rw [List.mem_filter] at hx
  simpa using hx.2

/-! ### Concrete fixtures for witnesses and counterexamples -/

/-- The registration body used by the repository's own handler test:
username "foo", password "bar", is_tutor false. -/
def regPayload : UserPayload :=
  { UserPayload.emptyBody with
    username := some "foo", password := some (PwBytes.raw "bar"), isTutor := some false }

/-- A stored tutor whose password column holds the bcrypt hash of "bar". -/
def storedUser : UserRow :=
  { UserRow.zero with
    id := 1, username := "foo",
    password := PwBytes.hashFmt 10 0 (PwBytes.raw "bar"), isTutor := true }

/-- A database holding just `storedUser`. -/
def sampleDB : DB :=
  { DB.empty with users := [storedUser], nextUserId := 2 }

/-! ### C1 -/

/-- C1 counterexample: a well-formed body with every field missing is not
rejected with 400; it registers successfully with status 200 (Go's JSON
decoder leaves missing fields at their zero values and the handler never
validates them). -/
theorem newUser_missing_fields_accepted :
    (newUser 0 DB.empty (some UserPayload.emptyBody)).2.status = 200 ∧
    ¬ (newUser 0 DB.empty (some UserPayload.emptyBody)).2.status = 400 := by
  constructor <;> decide

/-- C1 (amended): NewUser fails 400 with the structured body when the body is
malformed (or has unknown fields); fails 409 when a row with the exactly
matching username exists, leaving the store unchanged; otherwise — even with
required fields missing — it persists a new row whose password column is the
bcrypt hash of the submitted password, never the submitted bytes themselves,
and echoes the created row with 200. -/
theorem newUser_spec (salt : Nat) (db : DB) (p : UserPayload) :
    (newUser salt db none).2 = sendError "Bad request format" 400
    ∧ ((∃ u ∈ db.users, u.username = (decodePayload p).username) →
        (newUser salt db (some p)).2 = sendError "Username already exists" 409
        ∧ (newUser salt db (some p)).1 = db)
    ∧ ((∀ u ∈ db.users, u.username ≠ (decodePayload p).username) →
        ∃ created,
          (newUser salt db (some p)).1.users = db.users ++ [created]
          ∧ created.password = bcryptGenerate 10 salt (decodePayload p).password
          ∧ created.password ≠ (decodePayload p).password
          ∧ created.username = (decodePayload p).username
          ∧ created.id = db.nextUserId
          ∧ (newUser salt db (some p)).2
              = { status := 200, body := Body.jsonUserRow created }) := by
  refine ⟨rfl, ?_, ?_⟩
  · rintro ⟨u, hu, he⟩
    cases hf : db.users.find? (fun v => v.username == (decodePayload p).username) with
    | none =>
      rw [List.find?_eq_none] at hf
      exact absurd (by simp [he]) (hf u hu)
    | some v => simp [newUser, hf]
  · intro hall
    have hf : db.users.find? (fun v => v.username == (decodePayload p).username) = none := by
      rw [List.find?_eq_none]
      intro v hv
      simpa using hall v hv
    refine ⟨{ decodePayload p with
              id := db.nextUserId,
              password := bcryptGenerate 10 salt (decodePayload p).password },
            ?_, rfl, PwBytes.hashFmt_ne_arg _ 10 salt, rfl, rfl, ?_⟩
    · simp [newUser, hf]
    · simp [newUser, hf]

/-- C1 witness: with "foo" already registered, registering "foo" again is a
409 conflict that leaves the store unchanged. -/
theorem newUser_spec_witness :
    (newUser 0 sampleDB (some regPayload)).2 = sendError "Username already exists" 409
    ∧ (newUser 0 sampleDB (some regPayload)).1 = sampleDB :=
  (newUser_spec 0 sampleDB regPayload).2.1 ⟨storedUser, by decide, by decide⟩

/-! ### C2 -/

/-- C2: verification round-trips on every plaintext; registration stores a
bcrypt hash that is never the submitted bytes; and hashing is salted, so the
hashes drawn with two different salts differ in bytes while both verify. -/
theorem bcrypt_roundtrip_spec :
    (∀ cost salt p, bcryptCompare (bcryptGenerate cost salt p) p = true)
    ∧ (∀ salt db p,
        db.users.find? (fun u => u.username == (decodePayload p).username) = none →
        ∃ created,
          (newUser salt db (some p)).1.users = db.users ++ [created]
          ∧ created.password = bcryptGenerate 10 salt (decodePayload p).password
          ∧ created.password ≠ (decodePayload p).password)
    ∧ (∀ cost s1 s2 p, s1 ≠ s2 →
        bcryptGenerate cost s1 p ≠ bcryptGenerate cost s2 p
        ∧ bcryptCompare (bcryptGenerate cost s1 p) p = true
        ∧ bcryptCompare (bcryptGenerate cost s2 p) p = true) := by
  refine ⟨fun cost salt p => by simp [bcryptCompare, bcryptGenerate], ?_, ?_⟩
  · intro salt db p hf
    exact ⟨{ decodePayload p with
             id := db.nextUserId,
             password := bcryptGenerate 10 salt (decodePayload p).password },
           by simp [newUser, hf], rfl, PwBytes.hashFmt_ne_arg _ 10 salt⟩
  · intro cost s1 s2 p hne
    refine ⟨?_, by simp [bcryptCompare, bcryptGenerate], by simp [bcryptCompare, bcryptGenerate]⟩
    intro h
    injection h with h1 h2 h3
    exact hne h2

/-- C2 witness: hashing "bar" with salts 0 and 1 gives different hashes, both
verifying against "bar", and registering "foo"/"bar" into the empty store
persists the hash, not the plaintext. -/
theorem bcrypt_roundtrip_spec_witness :
    bcryptCompare (bcryptGenerate 10 0 (PwBytes.raw "bar")) (PwBytes.raw "bar") = true
    ∧ (∃ created,
        (newUser 0 DB.empty (some regPayload)).1.users = DB.empty.users ++ [created]
        ∧ created.password = bcryptGenerate 10 0 (decodePayload regPayload).password
        ∧ created.password ≠ (decodePayload regPayload).password)
    ∧ (bcryptGenerate 10 0 (PwBytes.raw "bar") ≠ bcryptGenerate 10 1 (PwBytes.raw "bar")
        ∧ bcryptCompare (bcryptGenerate 10 0 (PwBytes.raw "bar")) (PwBytes.raw "bar") = true
        ∧ bcryptCompare (bcryptGenerate 10 1 (PwBytes.raw "bar")) (PwBytes.raw "bar") = true) :=
  ⟨bcrypt_roundtrip_spec.1 10 0 (PwBytes.raw "bar"),
   bcrypt_roundtrip_spec.2.1 0 DB.empty regPayload (by decide),
   bcrypt_roundtrip_spec.2.2 10 0 1 (PwBytes.raw "bar") (by decide)⟩

/-! ### C8 -/

/-- C8: GetUser answers 401 with the structured error body whenever the
lookup by id fails, and 200 with the hydrated user when it succeeds. -/
theorem getUser_status_spec (db : DB) (id : Nat) :
    (db.userById id = none →
      getUser db id = { status := 401, body := Body.jsonError "Error retrieving user" 401 })
    ∧ (∀ u, db.userById id = some u →
        getUser db id = { status := 200, body := Body.jsonUserH (hydrate db u) }) := by
  constructor
  · intro h; simp [getUser, h, sendError]
  · intro u h; simp [getUser, h]

/-- C8 witness: looking up the absent id 2 answers 401 with the structured
body; looking up the present id 1 answers 200 with the hydrated user. -/
theorem getUser_status_spec_witness :
    getUser sampleDB 2 = { status := 401, body := Body.jsonError "Error retrieving user" 401 }
    ∧ getUser sampleDB 1 = { status := 200, body := Body.jsonUserH (hydrate sampleDB storedUser) } :=
  ⟨(getUser_status_spec sampleDB 2).1 (by decide),
   (getUser_status_spec sampleDB 1).2 storedUser (by decide)⟩

/-! ### C3 and C4: UpdateUser -/

/-- The row UpdateUser writes over a found user: the decoded payload,
re-hashed when its password differs byte-for-byte from the stored column,
then merged over the stored row with zero-valued fields skipped. -/
def updateResult (salt : Nat) (u decoded : UserRow) : UserRow :=
  mergeNonZero u
    (if decoded.password != u.password then
      { decoded with password := bcryptGenerate 10 salt decoded.password }
    else decoded)

/-- UpdateUser on a found user rewrites exactly the rows with that id to the
merged result and echoes it with 200. -/
theorem updateUser_found (salt : Nat) (db : DB) (id : Nat) (p : UserPayload)
    (u : UserRow) (h : db.userById id = some u) :
    updateUser salt db id (some p)
      = ({ db with users := db.users.map (fun v =>
             if v.id == id then updateResult salt u (decodePayload p) else v) },
         { status := 200, body := Body.jsonUserRow (updateResult salt u (decodePayload p)) }) := by
  unfold updateUser updateResult
  rw [h]
  rfl

/-- After UpdateUser on a found user, the row stored at that id is the merged
result. -/
theorem updateUser_userById (salt : Nat) (db : DB) (id : Nat) (p : UserPayload)
    (u : UserRow) (h : db.userById id = some u) :
    (updateUser salt db id (some p)).1.userById id
      = some (updateResult salt u (decodePayload p)) := by
  have h' : db.users.find? (fun v => v.id == id) = some u := h
  have hu : u.id = id := by simpa using List.find?_some h'
  rw [updateUser_found salt db id p u h]
  exact find?_id_map_replace db.users id _ hu u h'

/-- The merged row keeps the stored primary key and skips zero-valued
payload fields; the tutor flag in particular can be turned on but never
off by an update. -/
theorem updateResult_nonpassword_fields (salt : Nat) (u d : UserRow) :
    (updateResult salt u d).id = u.id
    ∧ (updateResult salt u d).username = (if d.username == "" then u.username else d.username)
    ∧ (updateResult salt u d).isTutor = (if d.isTutor then d.isTutor else u.isTutor)
    ∧ (updateResult salt u d).firstName = (if d.firstName == "" then u.firstName else d.firstName)
    ∧ (updateResult salt u d).lastName = (if d.lastName == "" then u.lastName else d.lastName)
    ∧ (updateResult salt u d).email = (if d.email == "" then u.email else d.email)
    ∧ (updateResult salt u d).phone = (if d.phone == "" then u.phone else d.phone)
    ∧ (updateResult salt u d).about = (if d.about == "" then u.about else d.about)
    ∧ (updateResult salt u d).rating = (if d.rating == 0 then u.rating else d.rating)
    ∧ (updateResult salt u d).grade = (if d.grade == 0 then u.grade else d.grade) := by
  unfold updateResult
  by_cases hc : (d.password != u.password) = true
  · rw [if_pos hc]
    exact ⟨rfl, rfl, rfl, rfl, rfl, rfl, rfl, rfl, rfl, rfl⟩
  · rw [if_neg hc]
    exact ⟨rfl, rfl, rfl, rfl, rfl, rfl, rfl, rfl, rfl, rfl⟩

/-- The merged row's password: unchanged when the decoded bytes equal the
stored column byte-for-byte, otherwise the bcrypt hash of the decoded
bytes. -/
theorem updateResult_password (salt : Nat) (u d : UserRow) :
    (updateResult salt u d).password
      = if d.password = u.password then u.password
        else bcryptGenerate 10 salt d.password := by
  by_cases hc : d.password = u.password
  · simp [updateResult, mergeNonZero, hc]
  · simp [updateResult, mergeNonZero, hc, bcryptGenerate]

/-- C3: UpdateUser re-hashes the supplied password exactly when it differs
byte-for-byte from the stored column; resupplying the plaintext of a stored
hash always differs from the hash itself, hence re-hashes; and after an
update with a genuinely new plaintext, the stored hash verifies against the
new plaintext and fails against any other (in particular the old one). -/
theorem updateUser_rehash_spec (salt : Nat) (db : DB) (id : Nat) (p : UserPayload)
    (u : UserRow) (h : db.userById id = some u) :
    ((updateUser salt db id (some p)).1.userById id).map (fun w => w.password)
      = some (if (decodePayload p).password = u.password then u.password
              else bcryptGenerate 10 salt (decodePayload p).password)
    ∧ (∀ c s q, u.password = PwBytes.hashFmt c s q → (decodePayload p).password = q →
        ((updateUser salt db id (some p)).1.userById id).map (fun w => w.password)
          = some (bcryptGenerate 10 salt q))
    ∧ ((decodePayload p).password ≠ u.password →
        bcryptCompare (bcryptGenerate 10 salt (decodePayload p).password)
            (decodePayload p).password = true
        ∧ ∀ old, old ≠ (decodePayload p).password →
            bcryptCompare (bcryptGenerate 10 salt (decodePayload p).password) old = false) := by
  have hmain := updateUser_userById salt db id p u h
  refine ⟨?_, ?_, ?_⟩
  · rw [hmain]
    exact congrArg some (updateResult_password salt u (decodePayload p))
  · intro c s q hcs hpw
    have hne : (decodePayload p).password ≠ u.password := by
      rw [hpw, hcs]
      intro he
      exact PwBytes.hashFmt_ne_arg q c s he.symm
    rw [hmain]
    have := updateResult_password salt u (decodePayload p)
    rw [if_neg hne, hpw] at this
    exact congrArg some this
  · intro hne
    refine ⟨by simp [bcryptCompare, bcryptGenerate], ?_⟩
    intro old hold
    simp only [bcryptCompare, bcryptGenerate]
    simpa using fun he => hold he.symm

/-- The update body resupplying the plaintext "bar" of the stored hash. -/
def pwPayload : UserPayload :=
  { UserPayload.emptyBody with password := some (PwBytes.raw "new") }

/-- C3 witness: updating user 1 (stored hash of "bar") with password "new"
re-hashes; the new hash verifies "new" and rejects "bar". -/
theorem updateUser_rehash_spec_witness :
    ((updateUser 3 sampleDB 1 (some pwPayload)).1.userById 1).map (fun w => w.password)
      = some (if (decodePayload pwPayload).password = storedUser.password then storedUser.password
              else bcryptGenerate 10 3 (decodePayload pwPayload).password)
    ∧ bcryptCompare (bcryptGenerate 10 3 (decodePayload pwPayload).password)
        (decodePayload pwPayload).password = true
    ∧ bcryptCompare (bcryptGenerate 10 3 (decodePayload pwPayload).password)
        (PwBytes.raw "bar") = false :=
  have hspec := updateUser_rehash_spec 3 sampleDB 1 pwPayload storedUser (by decide)
  ⟨hspec.1, (hspec.2.2 (by decide)).1,
   (hspec.2.2 (by decide)).2 (PwBytes.raw "bar") (by decide)⟩

/-- The update body explicitly setting the tutor flag to false. -/
def tutorOffPayload : UserPayload :=
  { UserPayload.emptyBody with isTutor := some false }

/-- C4 counterexample: the payload sets the tutor flag (present, value
false) on a stored tutor, yet the stored flag stays true — gorm's struct
`Updates` skips zero-valued fields, so a present-but-zero field does not
overwrite. -/
theorem updateUser_zero_field_not_overwritten :
    ((updateUser 5 sampleDB 1 (some tutorOffPayload)).1.userById 1).map (fun w => w.isTutor)
      = some true := by decide

/-- C4 (amended): a payload field overwrites the stored value only when its
decoded value is non-zero (non-empty string, true, non-zero number); fields
absent from the payload decode to the zero value and — like fields present
with a zero value — leave the stored value unchanged. The password column is
the exception: it is re-hashed and overwritten whenever the decoded value
(zero or not) differs byte-for-byte from the stored hash. -/
theorem updateUser_merge_spec (salt : Nat) (db : DB) (id : Nat) (p : UserPayload)
    (u : UserRow) (h : db.userById id = some u) :
    ∃ w, (updateUser salt db id (some p)).1.userById id = some w
      ∧ w.id = u.id
      ∧ w.username = (if (decodePayload p).username == "" then u.username
                      else (decodePayload p).username)
      ∧ w.isTutor = (if (decodePayload p).isTutor then (decodePayload p).isTutor else u.isTutor)
      ∧ w.firstName = (if (decodePayload p).firstName == "" then u.firstName
                       else (decodePayload p).firstName)
      ∧ w.lastName = (if (decodePayload p).lastName == "" then u.lastName
                      else (decodePayload p).lastName)
      ∧ w.email = (if (decodePayload p).email == "" then u.email else (decodePayload p).email)
      ∧ w.phone = (if (decodePayload p).phone == "" then u.phone else (decodePayload p).phone)
      ∧ w.about = (if (decodePayload p).about == "" then u.about else (decodePayload p).about)
      ∧ w.rating = (if (decodePayload p).rating == 0 then u.rating else (decodePayload p).rating)
      ∧ w.grade = (if (decodePayload p).grade == 0 then u.grade else (decodePayload p).grade)
      ∧ w.password = (if (decodePayload p).password = u.password then u.password
                      else bcryptGenerate 10 salt (decodePayload p).password) :=
  have hres := updateResult_nonpassword_fields salt u (decodePayload p)
  ⟨updateResult salt u (decodePayload p), updateUser_userById salt db id p u h,
   hres.1, hres.2.1, hres.2.2.1, hres.2.2.2.1, hres.2.2.2.2.1, hres.2.2.2.2.2.1,
   hres.2.2.2.2.2.2.1, hres.2.2.2.2.2.2.2.1, hres.2.2.2.2.2.2.2.2.1,
   hres.2.2.2.2.2.2.2.2.2, updateResult_password salt u (decodePayload p)⟩

/-- C4 witness: instantiated at the tutor-off payload on the sample store. -/
theorem updateUser_merge_spec_witness :
    ∃ w, (updateUser 5 sampleDB 1 (some tutorOffPayload)).1.userById 1 = some w
      ∧ w.id = storedUser.id
      ∧ w.username = (if (decodePayload tutorOffPayload).username == "" then storedUser.username
                      else (decodePayload tutorOffPayload).username)
      ∧ w.isTutor = (if (decodePayload tutorOffPayload).isTutor
                     then (decodePayload tutorOffPayload).isTutor else storedUser.isTutor)
      ∧ w.firstName = (if (decodePayload tutorOffPayload).firstName == "" then storedUser.firstName
                       else (decodePayload tutorOffPayload).firstName)
      ∧ w.lastName = (if (decodePayload tutorOffPayload).lastName == "" then storedUser.lastName
                      else (decodePayload tutorOffPayload).lastName)
      ∧ w.email = (if (decodePayload tutorOffPayload).email == "" then storedUser.email
                   else (decodePayload tutorOffPayload).email)
      ∧ w.phone = (if (decodePayload tutorOffPayload).phone == "" then storedUser.phone
                   else (decodePayload tutorOffPayload).phone)
      ∧ w.about = (if (decodePayload tutorOffPayload).about == "" then storedUser.about
                   else (decodePayload tutorOffPayload).about)
      ∧ w.rating = (if (decodePayload tutorOffPayload).rating == 0 then storedUser.rating
                    else (decodePayload tutorOffPayload).rating)
      ∧ w.grade = (if (decodePayload tutorOffPayload).grade == 0 then storedUser.grade
                   else (decodePayload tutorOffPayload).grade)
      ∧ w.password = (if (decodePayload tutorOffPayload).password = storedUser.password
                      then storedUser.password
                      else bcryptGenerate 10 5 (decodePayload tutorOffPayload).password) :=
  updateUser_merge_spec 5 sampleDB 1 tutorOffPayload storedUser (by decide)

/-! ### C5: DeleteUser -/

/-- C5 counterexample: deleting an id no user has does not fail with
NotFound (or at all): the handler answers 200, echoing a zero-valued user,
and leaves the store unchanged. -/
theorem deleteUser_missing_returns_200 :
    deleteUser DB.empty 1
      = (DB.empty, { status := 200, body := Body.jsonUserRow UserRow.zero }) := by
  decide

/-- C5 (amended): DeleteUser never fails. When no user has the id it deletes
nothing and echoes a zero-valued user with 200; when the user exists it
removes every row with that id — so a subsequent GetUser fails (with the
observed 401) — keeps all other rows, and echoes the deleted user with
200. -/
theorem deleteUser_spec (db : DB) (id : Nat) :
    (db.userById id = none →
      deleteUser db id = (db, { status := 200, body := Body.jsonUserRow UserRow.zero }))
    ∧ (∀ u, db.userById id = some u →
        (deleteUser db id).2 = { status := 200, body := Body.jsonUserRow u }
        ∧ (deleteUser db id).1.userById id = none
        ∧ getUser (deleteUser db id).1 id
            = { status := 401, body := Body.jsonError "Error retrieving user" 401 }
        ∧ ∀ v ∈ db.users, v.id ≠ id → v ∈ (deleteUser db id).1.users) := by
  constructor
  · intro h
    simp [deleteUser, h]
  · intro u h
    have h' : db.users.find? (fun v => v.id == id) = some u := h
    have hu : u.id = id := by simpa using List.find?_some h'
    have hdel : deleteUser db id
        = ({ db with users := db.users.filter (fun v => !(v.id == u.id)) },
           { status := 200, body := Body.jsonUserRow u }) := by
      unfold deleteUser
      rw [h]
    have hnone : ({ db with users := db.users.filter (fun v => !(v.id == u.id)) } : DB).userById id
        = none := by
      unfold DB.userById
      rw [hu]
      exact find?_filter_id_none db.users id
    refine ⟨by rw [hdel], by rw [hdel]; exact hnone, ?_, ?_⟩
    · rw [hdel]
      simp [getUser, hnone, sendError]
    · intro v hv hne
      rw [hdel]
      simp only [List.mem_filter]
      exact ⟨hv, by simpa [hu] using hne⟩

/-- C5 witness: deleting user 1 from the sample store echoes it with 200,
removes it, and a subsequent GetUser answers 401. -/
theorem deleteUser_spec_witness :
    (deleteUser sampleDB 1).2 = { status := 200, body := Body.jsonUserRow storedUser }
    ∧ (deleteUser sampleDB 1).1.userById 1 = none
    ∧ getUser (deleteUser sampleDB 1).1 1
        = { status := 401, body := Body.jsonError "Error retrieving user" 401 }
    ∧ ∀ v ∈ sampleDB.users, v.id ≠ 1 → v ∈ (deleteUser sampleDB 1).1.users :=
  (deleteUser_spec sampleDB 1).2 storedUser (by decide)

/-! ### C6: subject deduplication (spec-modelled AddSubject) -/

/-- C6: starting from a store with no subject of the given name, adding that
subject name to two existing users leaves exactly one Subject row with that
name, and both users are associated with it. -/
theorem addSubject_dedup_spec (db : DB) (u1 u2 : Nat) (n : String)
    (h1 : (db.userById u1).isSome) (h2 : (db.userById u2).isSome)
    (hn : ∀ s ∈ db.subjects, s.name ≠ n) :
    ∃ s, ((addSubject (addSubject db u1 n).1 u2 n).1.subjects.filter
            (fun t => t.name == n)) = [s]
      ∧ (u1, s.id) ∈ (addSubject (addSubject db u1 n).1 u2 n).1.userSubjects
      ∧ (u2, s.id) ∈ (addSubject (addSubject db u1 n).1 u2 n).1.userSubjects := by
  obtain ⟨w1, hw1⟩ := Option.isSome_iff_exists.mp h1
  obtain ⟨w2, hw2⟩ := Option.isSome_iff_exists.mp h2
  have hfn : db.subjects.find? (fun s => s.name == n) = none := by
    rw [List.find?_eq_none]
    intro s hs
    simpa using hn s hs
  have hstep1 : (addSubject db u1 n).1
      = { db with
            subjects := db.subjects ++ [{ id := db.nextSubjectId, name := n }],
            nextSubjectId := db.nextSubjectId + 1,
            userSubjects := db.userSubjects ++ [(u1, db.nextSubjectId)] } := by
    unfold addSubject
    rw [show db.userById u1 = some w1 from hw1, hfn]
  have hby2 : ((addSubject db u1 n).1).userById u2 = some w2 := by
    rw [hstep1]
    exact hw2
  have hfn2 : ((addSubject db u1 n).1).subjects.find? (fun s => s.name == n)
      = some { id := db.nextSubjectId, name := n } := by
    rw [hstep1]
    simp only [List.find?_append, hfn, Option.none_or]
    exact List.find?_cons_of_pos _ (by simp)
  have hgen : ∀ dbx : DB, dbx.userById u2 = some w2 →
      dbx.subjects.find? (fun s => s.name == n) = some { id := db.nextSubjectId, name := n } →
      (addSubject dbx u2 n).1
        = { dbx with userSubjects := dbx.userSubjects ++ [(u2, db.nextSubjectId)] } := by
    intro dbx hx hf
    unfold addSubject
    rw [hx, hf]
  have hstep2 : (addSubject (addSubject db u1 n).1 u2 n).1
      = { (addSubject db u1 n).1 with
            userSubjects := ((addSubject db u1 n).1).userSubjects
              ++ [(u2, db.nextSubjectId)] } :=
    hgen (addSubject db u1 n).1 hby2 hfn2
  refine ⟨{ id := db.nextSubjectId, name := n }, ?_, ?_, ?_⟩
  · rw [hstep2, hstep1]
    simp only [List.filter_append]
    rw [List.filter_eq_nil_iff.mpr (by intro s hs; simpa using hn s hs)]
    simp
  · rw [hstep2, hstep1]
    simp
  · rw [hstep2, hstep1]
    simp

/-- A store with two users and no subjects, for the C6 witness. -/
def twoUserDB : DB :=
  { DB.empty with
    users := [storedUser, { UserRow.zero with id := 2, username := "baz" }],
    nextUserId := 3 }

/-- C6 witness: adding "math" to users 1 and 2 of the two-user store leaves
exactly one "math" Subject row, associated with both. -/
theorem addSubject_dedup_spec_witness :
    ∃ s, ((addSubject (addSubject twoUserDB 1 "math").1 2 "math").1.subjects.filter
            (fun t => t.name == "math")) = [s]
      ∧ (1, s.id) ∈ (addSubject (addSubject twoUserDB 1 "math").1 2 "math").1.userSubjects
      ∧ (2, s.id) ∈ (addSubject (addSubject twoUserDB 1 "math").1 2 "math").1.userSubjects :=
  addSubject_dedup_spec twoUserDB 1 2 "math" (by decide) (by decide) (by decide)

/-! ### C7: GetAllUsers after registrations -/

/-- Registering a sequence of bodies through NewUser, threading the store
(one fresh salt per request). -/
def registerAll (db : DB) : List (Nat × UserPayload) → DB
  | [] => db
  | (salt, p) :: rest => registerAll (newUser salt db (some p)).1 rest

/-- A successful NewUser call appends exactly the created row and bumps the
autoincrement counter, leaving every other table untouched. -/
theorem newUser_success (salt : Nat) (db : DB) (p : UserPayload)
    (hf : db.users.find? (fun u => u.username == (decodePayload p).username) = none) :
    (newUser salt db (some p)).1
      = { db with
            users := db.users ++ [{ decodePayload p with
              id := db.nextUserId,
              password := bcryptGenerate 10 salt (decodePayload p).password }],
            nextUserId := db.nextUserId + 1 } := by
  simp [newUser, hf]

/-- Registering bodies with pairwise-distinct usernames, none already taken,
adds exactly one user row per body and touches no association table. -/
theorem registerAll_clean : ∀ (l : List (Nat × UserPayload)) (db : DB),
    (l.map (fun sp => (decodePayload sp.2).username)).Nodup →
    (∀ sp ∈ l, (decodePayload sp.2).username ∉ db.usernames) →
    (registerAll db l).users.length = db.users.length + l.length
    ∧ (registerAll db l).subjects = db.subjects
    ∧ (registerAll db l).userSubjects = db.userSubjects
    ∧ (registerAll db l).connections = db.connections
    ∧ (registerAll db l).reviews = db.reviews := by
  intro l
  induction l with
  | nil => intro db _ _; exact ⟨rfl, rfl, rfl, rfl, rfl⟩
  | cons sp rest ih =>
    intro db hnd hdisj
    obtain ⟨salt, p⟩ := sp
    have hhead := hdisj (salt, p) (List.mem_cons_self _ _)
    simp only [DB.usernames, List.mem_map, not_exists] at hhead
    have hf : db.users.find? (fun u => u.username == (decodePayload p).username) = none := by
      rw [List.find?_eq_none]
      intro u hu hb
      exact hhead u ⟨hu, by simpa using hb⟩
    have hsucc := newUser_success salt db p hf
    have hreg : registerAll db ((salt, p) :: rest) = registerAll (newUser salt db (some p)).1 rest := rfl
    rw [List.map_cons, List.nodup_cons] at hnd
    have hdisj' : ∀ sp' ∈ rest,
        (decodePayload sp'.2).username ∉ (newUser salt db (some p)).1.usernames := by
      intro sp' hsp'
      rw [hsucc]
      simp only [DB.usernames, List.map_append, List.map_cons, List.map_nil, List.mem_append]
      rintro (hin | hin)
      · exact hdisj sp' (List.mem_cons_of_mem _ hsp')
          (by simpa [DB.usernames] using hin)
      · simp only [List.mem_singleton] at hin
        exact hnd.1 (List.mem_map.mpr ⟨sp', hsp', hin⟩)
    obtain ⟨hlen, hsub, hus, hcon, hrev⟩ := ih (newUser salt db (some p)).1 hnd.2 hdisj'
    rw [hreg]
    refine ⟨?_, ?_, ?_, ?_, ?_⟩
    · rw [hlen, hsucc]
      simp only [List.length_append, List.length_cons, List.length_nil]
      omega
    · rw [hsub, hsucc]
    · rw [hus, hsucc]
    · rw [hcon, hsucc]
    · rw [hrev, hsucc]

/-- C7: after registering N bodies with pairwise-distinct usernames into an
empty store, GetAllUsers answers 200 with exactly N user records, each
hydrated with its Subjects, Connections and Reviews, and each of the three
relations is the empty sequence (never absent) for users that have none. -/
theorem getAllUsers_spec (l : List (Nat × UserPayload))
    (hnd : (l.map (fun sp => (decodePayload sp.2).username)).Nodup) :
    ∃ hs, getAllUsers (registerAll DB.empty l)
        = { status := 200, body := Body.jsonUserList hs }
      ∧ hs.length = l.length
      ∧ hs = (registerAll DB.empty l).users.map (hydrate (registerAll DB.empty l))
      ∧ ∀ h ∈ hs, h.subjects = [] ∧ h.connections = [] ∧ h.reviews = [] := by
  have hclean := registerAll_clean l DB.empty hnd
    (by intro sp hsp; simp [DB.empty, DB.usernames])
  refine ⟨(registerAll DB.empty l).users.map (hydrate (registerAll DB.empty l)),
          rfl, ?_, rfl, ?_⟩
  · rw [List.length_map, hclean.1]
    simp [DB.empty]
  · intro h hh
    rw [List.mem_map] at hh
    obtain ⟨u, hu, rfl⟩ := hh
    have hsub : (registerAll DB.empty l).subjects = [] := hclean.2.1
    have hus : (registerAll DB.empty l).userSubjects = [] := hclean.2.2.1
    have hcon : (registerAll DB.empty l).connections = [] := hclean.2.2.2.1
    have hrev : (registerAll DB.empty l).reviews = [] := hclean.2.2.2.2
    simp [hydrate, hsub, hus, hcon, hrev]

/-- A second registration body, username "baz". -/
def regPayload2 : UserPayload :=
  { UserPayload.emptyBody with username := some "baz" }

/-- C7 witness: registering "foo" and "baz" into the empty store, GetAllUsers
returns two records whose three relations are all empty sequences. -/
theorem getAllUsers_spec_witness :
    ∃ hs, getAllUsers (registerAll DB.empty [(0, regPayload), (1, regPayload2)])
        = { status := 200, body := Body.jsonUserList hs }
      ∧ hs.length = 2
      ∧ hs = (registerAll DB.empty [(0, regPayload), (1, regPayload2)]).users.map
              (hydrate (registerAll DB.empty [(0, regPayload), (1, regPayload2)]))
      ∧ ∀ h ∈ hs, h.subjects = [] ∧ h.connections = [] ∧ h.reviews = [] :=
  getAllUsers_spec [(0, regPayload), (1, regPayload2)] (by decide)

/-! ### C9: error body shapes -/

/-- A response whose body is the structured JSON error map, its "status"
entry agreeing with the wire status. -/
def Response.isStructuredError (r : Response) : Prop :=
  ∃ m, r.body = Body.jsonError m r.status

/-- C9 counterexample: a failed multipart parse in UploadProfilePicture is
reported through `http.Error` as plain text with status 400 — not as the
structured JSON error body — so not every user-visible failure surfaces in
the structured shape. -/
theorem upload_error_plaintext :
    (uploadProfilePicture { files := [] } 0 "1" none true).2
      = { status := 400, body := Body.plainText "Error uploading file" } := by
  decide

/-- C9 (amended): failures reported by the JSON handlers (GetUser,
GetUserFromSession, NewUser, AddSubject) all surface as the structured
error body with matching status; GetAllUsers, DeleteUser and UpdateUser
(on a well-formed body) never report a failure status; UpdateUser on a
malformed body aborts by panic, producing no response at all; and
UploadProfilePicture reports its failures as plain text via http.Error,
not as the structured body. -/
theorem error_body_spec :
    (∀ db, (getAllUsers db).status = 200)
    ∧ (∀ db id, (getUser db id).status ≠ 200 → (getUser db id).isStructuredError)
    ∧ (∀ db sess, (getUserFromSession db sess).status ≠ 200 →
        (getUserFromSession db sess).isStructuredError)
    ∧ (∀ salt db req, (newUser salt db req).2.status ≠ 200 →
        (newUser salt db req).2.isStructuredError)
    ∧ (∀ db uid n, (addSubject db uid n).2.status ≠ 200 →
        (addSubject db uid n).2.isStructuredError)
    ∧ (∀ db id, (deleteUser db id).2.status = 200)
    ∧ (∀ salt db id p, (updateUser salt db id (some p)).2.status = 200)
    ∧ (∀ salt db id, (updateUser salt db id none).2 = panicResponse)
    ∧ (∀ fs t uid form ok, (uploadProfilePicture fs t uid form ok).2.status ≠ 200 →
        ∃ m, (uploadProfilePicture fs t uid form ok).2.body = Body.plainText m) := by
  refine ⟨fun db => rfl, ?_, ?_, ?_, ?_, ?_, ?_, ?_, ?_⟩
  · intro db id h
    cases hx : db.userById id with
    | none => exact ⟨"Error retrieving user", by simp [getUser, hx, sendError, Response.isStructuredError]⟩
    | some u => exact absurd (by simp [getUser, hx]) h
  · intro db sess h
    cases sess with
    | storeError =>
      exact ⟨"Error retrieving user", by simp [getUserFromSession, sendError]⟩
    | ok o =>
      cases o with
      | none => exact ⟨"Error retrieving user", by simp [getUserFromSession, sendError]⟩
      | some uid =>
        cases hx : db.userById uid with
        | none =>
          exact ⟨"Error retrieving user", by simp [getUserFromSession, hx, sendError]⟩
        | some u =>
          by_cases ht : u.isTutor
          · exact absurd (by simp [getUserFromSession, hx, ht]) h
          · exact absurd (by simp [getUserFromSession, hx, ht]) h
  · intro salt db req h
    cases req with
    | none => exact ⟨"Bad request format", by simp [newUser, sendError]⟩
    | some p =>
      cases hf : db.users.find? (fun u => u.username == (decodePayload p).username) with
      | none => exact absurd (by simp [newUser, hf]) h
      | some v => exact ⟨"Username already exists", by simp [newUser, hf, sendError]⟩
  · intro db uid n h
    cases hx : db.userById uid with
    | none => exact ⟨"Error retrieving user", by simp [addSubject, hx, sendError]⟩
    | some u =>
      cases hf : db.subjects.find? (fun s => s.name == n) with
      | none => exact absurd (by simp [addSubject, hx, hf]) h
      | some s => exact absurd (by simp [addSubject, hx, hf]) h
  · intro db id
    cases hx : db.userById id with
    | none => simp [deleteUser, hx]
    | some u => simp [deleteUser, hx]
  · intro salt db id p
    simp [updateUser]
  · intro salt db id
    rfl
  · intro fs t uid form ok h
    cases form with
    | none => exact ⟨"Error uploading file", by simp [uploadProfilePicture]⟩
    | some nc =>
      obtain ⟨origName, content⟩ := nc
      by_cases hok : ok
      · exact absurd (by simp [uploadProfilePicture, hok]) h
      · exact ⟨"Error saving file", by simp [uploadProfilePicture, hok]⟩

/-- C9 witness: a failed GetUser lookup carries the structured body, and the
failed upload carries a plain-text body. -/
theorem error_body_spec_witness :
    (getUser DB.empty 1).isStructuredError
    ∧ (∃ m, (uploadProfilePicture { files := [] } 0 "1" none true).2.body
          = Body.plainText m) :=
  ⟨error_body_spec.2.1 DB.empty 1 (by decide),
   error_body_spec.2.2.2.2.2.2.2.2 { files := [] } 0 "1" none true (by decide)⟩

/-! ### C10: UploadProfilePicture never copies the uploaded bytes -/

/-- C10: on a request whose multipart form parses and whose destination file
opens, the handler creates the destination empty and returns without copying
the uploaded content: the stored file keeps content "", and no file with the
uploaded content exists; the parse-failure and open-failure paths answer 400
and 500. -/
theorem upload_never_copies (fs : FS) (now : Nat) (uid origName content : String)
    (h : fs.files.find?
        (fun f => f.1 == "/uploads/" ++ uid ++ "_" ++ toString now ++ "_" ++ origName)
      = none) :
    (uploadProfilePicture fs now uid (some (origName, content)) true).1.files
      = fs.files ++ [("/uploads/" ++ uid ++ "_" ++ toString now ++ "_" ++ origName, "")]
    ∧ (content ≠ "" →
        ("/uploads/" ++ uid ++ "_" ++ toString now ++ "_" ++ origName, content)
          ∉ (uploadProfilePicture fs now uid (some (origName, content)) true).1.files)
    ∧ (uploadProfilePicture fs now uid none true).2.status = 400
    ∧ (uploadProfilePicture fs now uid (some (origName, content)) false).2.status = 500 := by
  have hmain : (uploadProfilePicture fs now uid (some (origName, content)) true).1.files
      = fs.files ++ [("/uploads/" ++ uid ++ "_" ++ toString now ++ "_" ++ origName, "")] := by
    simp [uploadProfilePicture, h]
  refine ⟨hmain, ?_, rfl, rfl⟩
  intro hcne hmem
  rw [hmain, List.mem_append] at hmem
  cases hmem with
  | inl hin =>
    rw [List.find?_eq_none] at h
    exact h _ hin (by simp)
  | inr hin =>
    simp only [List.mem_singleton, Prod.mk.injEq] at hin
    exact hcne hin.2

/-- C10 witness: uploading "a.png" with content "abc" for user 1 into an
empty uploads directory stores an empty file and never the content. -/
theorem upload_never_copies_witness :
    (uploadProfilePicture { files := [] } 7 "1" (some ("a.png", "abc")) true).1.files
      = ({ files := [] } : FS).files
        ++ [("/uploads/" ++ "1" ++ "_" ++ toString 7 ++ "_" ++ "a.png", "")]
    ∧ ("/uploads/" ++ "1" ++ "_" ++ toString 7 ++ "_" ++ "a.png", "abc")
        ∉ (uploadProfilePicture { files := [] } 7 "1" (some ("a.png", "abc")) true).1.files :=
  have hu := upload_never_copies { files := [] } 7 "1" "a.png" "abc" (by decide)
  ⟨hu.1, hu.2.1 (by decide)⟩
